import Mathlib

/-
Shallow embedding of src/MsgRobot/Wechat.py.

The module is a thin WeChat Work (企业微信) messaging client:
  - a module-level helper send(*args, **kwargs) that performs an HTTP POST,
    parses the JSON response, logs at critical level when the errcode field
    is non-zero, and returns the parsed response;
  - class WechatGroupRobot(key) with send_msg / send_md posting text or
    markdown bodies to a webhook URL parameterized by the key;
  - class WechatRobot(app_config) that validates the presence of the
    corp_id / secret_id / agent_id fields, lazily refreshes a cached access
    token when a validity check fails, and posts text messages to users.

Modelling conventions.
  - Python dicts (the mutable config mapping and parsed JSON objects) are
    association lists with first-occurrence lookup; assignment replaces the
    first occurrence or appends.
  - Values are PyVal: a string or a number.  Python floats, and the strings
    produced by str(time.time()) and parsed back by float(...), are both
    represented by the rational-valued constructor PyVal.num, since the code
    only ever round-trips them through str/float; PyVal.str stands for a
    string that float(...) rejects.
  - time.time() is an explicit parameter now of type rationals.
  - Network I/O is an explicit input: each HTTP call receives its outcome as
    an Except PyError JsonObj value (an exception from requests/json.loads,
    or the parsed response object), and each operation additionally returns
    the request it would post, so that theorems can speak about the posted
    bodies and about whether the token endpoint was hit.
  - Exceptions are the PyError type; functions that can raise return Except.
    Mutating methods also return the post-state of the mutable state, which
    on an exception path is the state at the moment the exception escapes.
-/

namespace MsgRobot

/-- A Python value as stored in the config mapping or a parsed JSON object:
a string, or a number (also standing for a numeric string, see the header
comment). -/
inductive PyVal where
  | str : String → PyVal
  | num : ℚ → PyVal
deriving DecidableEq

/-- Python exceptions that the embedded code can raise. -/
inductive PyError where
  | keyError : String → PyError
  | valueError : String → PyError
  | netError : PyError
deriving DecidableEq

instance instDecEqExcept {ε α : Type} [DecidableEq ε] [DecidableEq α] :
    DecidableEq (Except ε α) := fun x y =>
  match x, y with
  | .ok a, .ok b =>
    if h : a = b then isTrue (by rw [h])
    else isFalse (fun hc => h (Except.ok.inj hc))
  | .error a, .error b =>
    if h : a = b then isTrue (by rw [h])
    else isFalse (fun hc => h (Except.error.inj hc))
  | .ok _, .error _ => isFalse (fun hc => Except.noConfusion hc)
  | .error _, .ok _ => isFalse (fun hc => Except.noConfusion hc)

/-- A Python dict with string keys, used for the config mapping and for
parsed JSON objects. -/
abbrev PyDict := List (String × PyVal)

/-- A parsed JSON response object. -/
abbrev JsonObj := PyDict

/-- Dict lookup: the value at the first occurrence of the key. -/
def lookupKey : PyDict → String → Option PyVal
  | [], _ => none
  | (k, v) :: rest, k0 => if k = k0 then some v else lookupKey rest k0

/-- Dict assignment d[k] = v: replace the first occurrence of the key, or
append a fresh entry. -/
def setKey : PyDict → String → PyVal → PyDict
  | [], k, v => [(k, v)]
  | (k0, w) :: rest, k, v =>
    if k0 = k then (k, v) :: rest else (k0, w) :: setKey rest k v

/-- Python truthiness of a value: a string is truthy iff non-empty, a number
iff non-zero. -/
def truthy : PyVal → Bool
  | .str s => !s.isEmpty
  | .num q => q != 0

/-- float(v): succeeds on a number (or numeric string, represented as
PyVal.num), fails with ValueError on a non-numeric string. -/
def pyFloat : PyVal → Option ℚ
  | .num q => some q
  | .str _ => none

/-- The comparison res["errcode"] != 0: false exactly for the number 0 (a
string value never equals the integer 0 in Python). -/
def errcodeNonzero : PyVal → Bool
  | .num q => q != 0
  | .str _ => true

/-- The module-level helper send: POST (whose outcome is the resp argument),
parse the JSON response, log at critical level iff the errcode field is
non-zero, and return the parsed response unchanged.  The Bool in the result
records whether the critical log line was emitted.  A response without an
errcode field raises KeyError. -/
def send (resp : Except PyError JsonObj) : Except PyError (JsonObj × Bool) :=
  match resp with
  | .error e => .error e
  | .ok res =>
    match lookupKey res "errcode" with
    | none => .error (.keyError "errcode")
    | some v => .ok (res, errcodeNonzero v)

/-- WechatGroupRobot: state is just the webhook key stored at construction. -/
structure WechatGroupRobot where
  key : String
deriving DecidableEq

/-- The inner payload dict of a group webhook body: content and the two
mention lists. -/
structure GroupPayload where
  content : String
  mentioned_list : List String
  mentioned_mobile_list : List String
deriving DecidableEq

/-- A group webhook body: the msgtype tag, the key under which the payload
dict is stored (equal to the msgtype in the source), and the payload. -/
structure GroupBody where
  msgtype : String
  payloadKey : String
  payload : GroupPayload
deriving DecidableEq

/-- The request posted by a group robot: the webhook key baked into the URL
and the JSON body. -/
structure GroupRequest where
  key : String
  body : GroupBody
deriving DecidableEq

/-- WechatGroupRobot.send_msg: build the text body, POST it via send.
Returns the send result, the (unchanged) robot state, and the posted
request. -/
def WechatGroupRobot.send_msg (r : WechatGroupRobot) (message : String)
    (mentioned_list mentioned_mobile_list : List String)
    (resp : Except PyError JsonObj) :
    Except PyError (JsonObj × Bool) × WechatGroupRobot × GroupRequest :=
  (send resp, r,
    ⟨r.key, ⟨"text", "text", ⟨message, mentioned_list, mentioned_mobile_list⟩⟩⟩)

/-- WechatGroupRobot.send_md: build the markdown body, POST it via send.
Returns the send result, the (unchanged) robot state, and the posted
request. -/
def WechatGroupRobot.send_md (r : WechatGroupRobot) (message : String)
    (mentioned_list mentioned_mobile_list : List String)
    (resp : Except PyError JsonObj) :
    Except PyError (JsonObj × Bool) × WechatGroupRobot × GroupRequest :=
  (send resp, r,
    ⟨r.key, ⟨"markdown", "markdown",
      ⟨message, mentioned_list, mentioned_mobile_list⟩⟩⟩)

/-- The required config fields checked by WechatRobot init, in source
order. -/
def requiredKeys : List String := ["corp_id", "secret_id", "agent_id"]

/-- The ValueError message raised for a missing config field. -/
def configErrMsg (k : String) : String := "config配置错误,缺少" ++ k ++ "字段"

/-- The validation loop of WechatRobot init: raise ValueError on the first
required key missing from the config. -/
def checkKeys : List String → PyDict → Except PyError Unit
  | [], _ => .ok ()
  | k :: ks, cfg =>
    if (lookupKey cfg k).isSome then checkKeys ks cfg
    else .error (.valueError (configErrMsg k))

/-- WechatRobot init: store the config mapping as-is after validating that
corp_id, secret_id and agent_id are present. -/
def WechatRobot.init (cfg : PyDict) : Except PyError PyDict :=
  match checkKeys requiredKeys cfg with
  | .ok _ => .ok cfg
  | .error e => .error e

/-- The guard of the try/assert in get_access_token:
assert 0 < time.time() - float(config[token_time]) < 7260 and config[token].
Every failure mode inside the try block (missing token_time key, ValueError
from float, comparison false, missing or falsy token) is caught, so the
guard collapses to this Bool. -/
def tokenValid (cfg : PyDict) (now : ℚ) : Bool :=
  match lookupKey cfg "token_time" with
  | none => false
  | some tv =>
    match pyFloat tv with
    | none => false
    | some t =>
      if 0 < now - t ∧ now - t < 7260 then
        match lookupKey cfg "token" with
        | none => false
        | some tok => truthy tok
      else false

/-- The query parameters of a POST to the token endpoint
https://qyapi.weixin.qq.com/cgi-bin/gettoken. -/
structure TokenRequest where
  corpid : PyVal
  corpsecret : PyVal
deriving DecidableEq

/-- WechatRobot get_access_token: when the cached token is valid, return it
without touching the network; otherwise build the corpid/corpsecret query,
POST to the token endpoint (outcome given by resp), parse the response,
store the access_token value into the token field and the current time into
the token_time field, and return the new token.  Result components: the
returned token or the escaping exception, the post-state of the config, and
the token-endpoint request when one was posted. -/
def WechatRobot.get_access_token (cfg : PyDict) (now : ℚ)
    (resp : Except PyError JsonObj) :
    Except PyError PyVal × PyDict × Option TokenRequest :=
  if tokenValid cfg now then
    match lookupKey cfg "token" with
    | some tok => (.ok tok, cfg, none)
    | none => (.error (.keyError "token"), cfg, none)
  else
    match lookupKey cfg "corp_id" with
    | none => (.error (.keyError "corp_id"), cfg, none)
    | some cid =>
      match lookupKey cfg "secret_id" with
      | none => (.error (.keyError "secret_id"), cfg, none)
      | some sid =>
        match resp with
        | .error e => (.error e, cfg, some ⟨cid, sid⟩)
        | .ok data =>
          match lookupKey data "access_token" with
          | none => (.error (.keyError "access_token"), cfg, some ⟨cid, sid⟩)
          | some tok =>
            (.ok tok, setKey (setKey cfg "token" tok) "token_time" (.num now),
              some ⟨cid, sid⟩)

/-- The receiver argument of WechatRobot send_msg: a single string, or a
non-string iterable of strings. -/
inductive Receiver where
  | single : String → Receiver
  | many : List String → Receiver
deriving DecidableEq

/-- The receiver normalization at the top of WechatRobot send_msg: a
non-string iterable is joined with the pipe separator, a plain string is
left unchanged. -/
def normalizeReceiver : Receiver → String
  | .single s => s
  | .many l => String.intercalate "|" l

/-- The request posted by WechatRobot send_msg: the access token baked into
the URL and the fields of the JSON body. -/
structure MsgRequest where
  access_token : PyVal
  touser : String
  msgtype : String
  agentid : PyVal
  content : String
  safe : String
deriving DecidableEq

/-- WechatRobot send_msg: normalize the receiver, ensure a token via
get_access_token (outcome of the token POST given by tokenResp), build the
message body, POST it via send (outcome given by sendResp).  Result
components: the send result or the escaping exception, the post-state of
the config, the token-endpoint request when one was posted, and the message
request when the flow reached the final POST. -/
def WechatRobot.send_msg (cfg : PyDict) (now : ℚ) (message : String)
    (receiver : Receiver) (tokenResp sendResp : Except PyError JsonObj) :
    Except PyError (JsonObj × Bool) × PyDict × Option TokenRequest ×
      Option MsgRequest :=
  let r := normalizeReceiver receiver
  match WechatRobot.get_access_token cfg now tokenResp with
  | (.error e, cfg1, tr) => (.error e, cfg1, tr, none)
  | (.ok tok, cfg1, tr) =>
    match lookupKey cfg1 "agent_id" with
    | none => (.error (.keyError "agent_id"), cfg1, tr, none)
    | some aid =>
      (send sendResp, cfg1, tr, some ⟨tok, r, "text", aid, message, "0"⟩)

/-! Helper lemmas about the dict operations and the token validity guard. -/

theorem lookupKey_setKey_self (d : PyDict) (k : String) (v : PyVal) :
    lookupKey (setKey d k v) k = some v := by
  induction d with
  | nil => simp [setKey, lookupKey]
  | cons p rest ih =>
    obtain ⟨k0, w⟩ := p
    by_cases h : k0 = k
    · subst h
      simp [setKey, lookupKey]
    · simp [setKey, lookupKey, h, ih]

theorem lookupKey_setKey_ne (d : PyDict) (k k0 : String) (v : PyVal)
    (h : k0 ≠ k) : lookupKey (setKey d k v) k0 = lookupKey d k0 := by
  induction d with
  | nil => simp [setKey, lookupKey, Ne.symm h]
  | cons p rest ih =>
    obtain ⟨k1, w⟩ := p
    by_cases h1 : k1 = k
    · subst h1
      simp [setKey, lookupKey, Ne.symm h]
    · simp only [setKey, if_neg h1, lookupKey]
      by_cases h2 : k1 = k0
      · simp [h2]
      · simp [h2, ih]

theorem tokenValid_iff (cfg : PyDict) (now : ℚ) :
    tokenValid cfg now = true ↔
      ((∃ t, (lookupKey cfg "token_time").bind pyFloat = some t ∧
        0 < now - t ∧ now - t < 7260) ∧
       ∃ tok, lookupKey cfg "token" = some tok ∧ truthy tok = true) := by
  unfold tokenValid
  cases htv : lookupKey cfg "token_time" with
  | none => simp
  | some tv =>
    cases hf : pyFloat tv with
    | none => simp [hf]
    | some t =>
      by_cases hr : 0 < now - t ∧ now - t < 7260
      · obtain ⟨h1, h2⟩ := hr
        have h3 : t < now := by linarith
        cases htk : lookupKey cfg "token" with
        | none => simp [hf, htk, h1, h2, h3]
        | some tok => simp [hf, htk, h1, h2, h3]
      · simp only [hf, Option.some_bind, if_neg hr, Bool.false_eq_true,
          false_iff]
        intro hcontra
        rcases hcontra with ⟨⟨t0, ht0, h1, h2⟩, -⟩
        have ht : t = t0 := Option.some.inj ht0
        subst ht
        exact hr ⟨h1, h2⟩

theorem get_trace_none_iff (cfg : PyDict) (now : ℚ)
    (resp : Except PyError JsonObj)
    (hc : (lookupKey cfg "corp_id").isSome)
    (hs : (lookupKey cfg "secret_id").isSome) :
    (WechatRobot.get_access_token cfg now resp).2.2 = none ↔
      tokenValid cfg now = true := by
  unfold WechatRobot.get_access_token
  cases h : tokenValid cfg now
  · obtain ⟨cid, hcid⟩ := Option.isSome_iff_exists.mp hc
    obtain ⟨sid, hsid⟩ := Option.isSome_iff_exists.mp hs
    simp only [Bool.false_eq_true, if_false, hcid, hsid]
    cases resp with
    | error e => simp
    | ok data => cases hl : lookupKey data "access_token" <;> simp [hl]
  · simp only [if_true]
    cases hl : lookupKey cfg "token" <;> simp

theorem get_refresh_eq (cfg : PyDict) (now : ℚ) (data : JsonObj)
    (cid sid tok : PyVal)
    (hv : tokenValid cfg now = false)
    (hc : lookupKey cfg "corp_id" = some cid)
    (hs : lookupKey cfg "secret_id" = some sid)
    (ht : lookupKey data "access_token" = some tok) :
    WechatRobot.get_access_token cfg now (.ok data) =
      (.ok tok, setKey (setKey cfg "token" tok) "token_time" (.num now),
        some ⟨cid, sid⟩) := by
  simp [WechatRobot.get_access_token, hv, hc, hs, ht]

theorem get_frame (cfg : PyDict) (now : ℚ) (resp : Except PyError JsonObj)
    (k : String) (hk1 : k ≠ "token") (hk2 : k ≠ "token_time") :
    lookupKey (WechatRobot.get_access_token cfg now resp).2.1 k =
      lookupKey cfg k := by
  unfold WechatRobot.get_access_token
  cases h : tokenValid cfg now
  · simp only [Bool.false_eq_true, if_false]
    cases hc : lookupKey cfg "corp_id" with
    | none => simp
    | some cid =>
      simp only
      cases hs : lookupKey cfg "secret_id" with
      | none => simp
      | some sid =>
        simp only
        cases resp with
        | error e => simp
        | ok data =>
          simp only
          cases hl : lookupKey data "access_token" with
          | none => simp [hl]
          | some tok =>
            simp only [hl]
            rw [lookupKey_setKey_ne _ _ _ _ hk2, lookupKey_setKey_ne _ _ _ _ hk1]
  · simp only [if_true]
    cases hl : lookupKey cfg "token" <;> simp [hl]

theorem get_valid_eq (cfg : PyDict) (now : ℚ) (resp : Except PyError JsonObj)
    (tok : PyVal) (hv : tokenValid cfg now = true)
    (ht : lookupKey cfg "token" = some tok) :
    WechatRobot.get_access_token cfg now resp = (.ok tok, cfg, none) := by
  simp [WechatRobot.get_access_token, hv, ht]

theorem send_msg_eq_of_get (cfg cfg1 : PyDict) (now : ℚ)
    (m : String) (r : Receiver) (tokenResp sendResp : Except PyError JsonObj)
    (tok aid : PyVal) (tr : Option TokenRequest)
    (hg : WechatRobot.get_access_token cfg now tokenResp = (.ok tok, cfg1, tr))
    (ha : lookupKey cfg1 "agent_id" = some aid) :
    WechatRobot.send_msg cfg now m r tokenResp sendResp =
      (send sendResp, cfg1, tr,
        some ⟨tok, normalizeReceiver r, "text", aid, m, "0"⟩) := by
  simp [WechatRobot.send_msg, hg, ha]

/-! Claims. -/

/-- C1: in get_access_token the token is considered valid, and the
token-endpoint POST is skipped, if and only if the elapsed time since
acquisition (now minus the stored token_time) is strictly greater than 0
and strictly less than 7260 seconds and the cached token field is present
and non-empty (truthy); in every other state the call performs the refresh
POST.  Stated for configs holding corp_id and secret_id, as guaranteed by
init. -/
theorem C1_refresh_skipped_iff_valid (cfg : PyDict) (now : ℚ)
    (resp : Except PyError JsonObj)
    (hc : (lookupKey cfg "corp_id").isSome = true)
    (hs : (lookupKey cfg "secret_id").isSome = true) :
    (WechatRobot.get_access_token cfg now resp).2.2 = none ↔
      ((∃ t, (lookupKey cfg "token_time").bind pyFloat = some t ∧
        0 < now - t ∧ now - t < 7260) ∧
       ∃ tok, lookupKey cfg "token" = some tok ∧ truthy tok = true) :=
  (get_trace_none_iff cfg now resp hc hs).trans (tokenValid_iff cfg now)

/-- Witness for C1: with a token acquired at time 0, a truthy token and
current time 100, the refresh POST is skipped. -/
theorem C1_witness :
    (WechatRobot.get_access_token
        [("corp_id", PyVal.str "c"), ("secret_id", PyVal.str "s"),
         ("token", PyVal.str "T"), ("token_time", PyVal.num 0)]
        100 (.error .netError)).2.2 = none :=
  (C1_refresh_skipped_iff_valid _ 100 _ (by decide) (by decide)).mpr
    ⟨⟨0, by simp [lookupKey, pyFloat], by norm_num, by norm_num⟩,
     PyVal.str "T", by decide, by decide⟩

/-- C2: in an absent or expired token state, a send call posts exactly one
token-endpoint request, carrying the configured corp id and secret; on a
successful response it stores the returned access_token into the token
field and the current timestamp into the token_time field, and the token
returned by get_access_token is exactly the newly stored one. -/
theorem C2_refresh_stores_token (cfg : PyDict) (now : ℚ) (m : String)
    (r : Receiver) (data : JsonObj) (sendResp : Except PyError JsonObj)
    (cid sid tok : PyVal)
    (hv : tokenValid cfg now = false)
    (hc : lookupKey cfg "corp_id" = some cid)
    (hs : lookupKey cfg "secret_id" = some sid)
    (ht : lookupKey data "access_token" = some tok) :
    (WechatRobot.send_msg cfg now m r (.ok data) sendResp).2.2.1 =
      some ⟨cid, sid⟩ ∧
    lookupKey (WechatRobot.send_msg cfg now m r (.ok data) sendResp).2.1
      "token" = some tok ∧
    lookupKey (WechatRobot.send_msg cfg now m r (.ok data) sendResp).2.1
      "token_time" = some (.num now) ∧
    (WechatRobot.get_access_token cfg now (.ok data)).1 = .ok tok := by
  have hg := get_refresh_eq cfg now data cid sid tok hv hc hs ht
  have hpost :
      (WechatRobot.send_msg cfg now m r (.ok data) sendResp).2.1 =
        setKey (setKey cfg "token" tok) "token_time" (PyVal.num now) ∧
      (WechatRobot.send_msg cfg now m r (.ok data) sendResp).2.2.1 =
        some ⟨cid, sid⟩ := by
    cases ha : lookupKey (setKey (setKey cfg "token" tok) "token_time"
        (PyVal.num now)) "agent_id" with
    | none =>
      exact ⟨by simp [WechatRobot.send_msg, hg, ha],
        by simp [WechatRobot.send_msg, hg, ha]⟩
    | some aid =>
      exact ⟨by simp [WechatRobot.send_msg, hg, ha],
        by simp [WechatRobot.send_msg, hg, ha]⟩
  refine ⟨hpost.2, ?_, ?_, ?_⟩
  · rw [hpost.1, lookupKey_setKey_ne _ _ _ _ (by decide)]
    exact lookupKey_setKey_self _ _ _
  · rw [hpost.1]
    exact lookupKey_setKey_self _ _ _
  · rw [hg]

/-- Witness for C2: with no cached token_time, a send call at time 5 posts
the token request and stores the returned token. -/
theorem C2_witness :
    lookupKey (WechatRobot.send_msg
        [("corp_id", PyVal.str "c"), ("secret_id", PyVal.str "s"),
         ("agent_id", PyVal.str "a")] 5 "hi" (Receiver.single "u")
        (.ok [("access_token", PyVal.str "T")])
        (.ok [("errcode", PyVal.num 0)])).2.1 "token" =
      some (PyVal.str "T") :=
  (C2_refresh_stores_token
    [("corp_id", PyVal.str "c"), ("secret_id", PyVal.str "s"),
     ("agent_id", PyVal.str "a")] 5 "hi" (Receiver.single "u")
    [("access_token", PyVal.str "T")] (.ok [("errcode", PyVal.num 0)])
    (PyVal.str "c") (PyVal.str "s") (PyVal.str "T")
    (by decide) (by decide) (by decide) (by decide)).2.1

/-- C3: on a parsed response containing a numeric errcode field, the send
helper returns the raw response unchanged without raising, with the
critical-log flag set if and only if the errcode is non-zero. -/
theorem C3_send_returns_raw_response (res : JsonObj) (e : ℚ)
    (h : lookupKey res "errcode" = some (PyVal.num e)) :
    send (.ok res) = .ok (res, e != 0) := by
  simp [send, h, errcodeNonzero]

/-- Witness for C3: a response with errcode 0 is returned unchanged and no
critical log is emitted. -/
theorem C3_witness :
    send (.ok [("errcode", PyVal.num 0)]) =
      .ok ([("errcode", PyVal.num 0)], false) := by
  have h := C3_send_returns_raw_response [("errcode", PyVal.num 0)] 0
    (by decide)
  simpa using h

/-- C4: the body posted by WechatRobot send_msg has touser equal to the
normalized receiver, msgtype text, agentid the configured agent id, content
equal to the message, and safe equal to the string 0; normalization joins a
non-string iterable with the pipe separator and leaves a plain string
unchanged. -/
theorem C4_send_msg_body (cfg cfg1 : PyDict) (now : ℚ) (m : String)
    (r : Receiver) (tokenResp sendResp : Except PyError JsonObj)
    (tok aid : PyVal) (tr : Option TokenRequest)
    (hg : WechatRobot.get_access_token cfg now tokenResp = (.ok tok, cfg1, tr))
    (ha : lookupKey cfg "agent_id" = some aid) :
    (WechatRobot.send_msg cfg now m r tokenResp sendResp).2.2.2 =
      some ⟨tok, normalizeReceiver r, "text", aid, m, "0"⟩ ∧
    (∀ l, normalizeReceiver (.many l) = String.intercalate "|" l) ∧
    (∀ s, normalizeReceiver (.single s) = s) ∧
    normalizeReceiver (.many ["a", "b"]) = "a|b" := by
  have hfr := get_frame cfg now tokenResp "agent_id" (by decide) (by decide)
  rw [hg] at hfr
  have ha1 : lookupKey cfg1 "agent_id" = some aid := hfr.trans ha
  refine ⟨?_, fun l => rfl, fun s => rfl, rfl⟩
  rw [send_msg_eq_of_get cfg cfg1 now m r tokenResp sendResp tok aid tr hg ha1]

/-- Witness for C4: with a valid cached token, sending to the receiver list
a, b posts touser a|b with msgtype text, the configured agent id, the
message and safe 0. -/
theorem C4_witness :
    (WechatRobot.send_msg
        [("corp_id", PyVal.str "c"), ("secret_id", PyVal.str "s"),
         ("agent_id", PyVal.str "a"), ("token", PyVal.str "T"),
         ("token_time", PyVal.num 0)] 100 "hi" (Receiver.many ["a", "b"])
        (.error .netError) (.ok [("errcode", PyVal.num 0)])).2.2.2 =
      some ⟨PyVal.str "T", "a|b", "text", PyVal.str "a", "hi", "0"⟩ := by
  have hv : tokenValid
      [("corp_id", PyVal.str "c"), ("secret_id", PyVal.str "s"),
       ("agent_id", PyVal.str "a"), ("token", PyVal.str "T"),
       ("token_time", PyVal.num 0)] 100 = true :=
    (tokenValid_iff _ 100).mpr
      ⟨⟨0, by simp [lookupKey, pyFloat], by norm_num, by norm_num⟩,
       PyVal.str "T", by decide, by decide⟩
  have hg := get_valid_eq
    [("corp_id", PyVal.str "c"), ("secret_id", PyVal.str "s"),
     ("agent_id", PyVal.str "a"), ("token", PyVal.str "T"),
     ("token_time", PyVal.num 0)]
    100 (.error .netError) (PyVal.str "T") hv (by decide)
  have h := C4_send_msg_body
    [("corp_id", PyVal.str "c"), ("secret_id", PyVal.str "s"),
     ("agent_id", PyVal.str "a"), ("token", PyVal.str "T"),
     ("token_time", PyVal.num 0)]
    [("corp_id", PyVal.str "c"), ("secret_id", PyVal.str "s"),
     ("agent_id", PyVal.str "a"), ("token", PyVal.str "T"),
     ("token_time", PyVal.num 0)]
    100 "hi" (Receiver.many ["a", "b"]) (.error .netError)
    (.ok [("errcode", PyVal.num 0)]) (PyVal.str "T") (PyVal.str "a") none
    hg (by decide)
  rw [h.1]
  decide

/-- C5: the body posted by the group robot text send has msgtype text,
content equal to the message, and the two mention lists equal to the
inputs. -/
theorem C5_group_text_body (r : WechatGroupRobot) (m : String)
    (ml mml : List String) (resp : Except PyError JsonObj) :
    ((WechatGroupRobot.send_msg r m ml mml resp).2.2).body.msgtype = "text" ∧
    ((WechatGroupRobot.send_msg r m ml mml resp).2.2).body.payload.content
      = m ∧
    ((WechatGroupRobot.send_msg r m ml mml
      resp).2.2).body.payload.mentioned_list = ml ∧
    ((WechatGroupRobot.send_msg r m ml mml
      resp).2.2).body.payload.mentioned_mobile_list = mml :=
  ⟨rfl, rfl, rfl, rfl⟩

/-- C6: the body posted by the group robot markdown send has msgtype
markdown and the markdown payload content equal to the message. -/
theorem C6_group_markdown_body (r : WechatGroupRobot) (m : String)
    (ml mml : List String) (resp : Except PyError JsonObj) :
    ((WechatGroupRobot.send_md r m ml mml resp).2.2).body.msgtype =
      "markdown" ∧
    ((WechatGroupRobot.send_md r m ml mml resp).2.2).body.payloadKey =
      "markdown" ∧
    ((WechatGroupRobot.send_md r m ml mml resp).2.2).body.payload.content =
      m :=
  ⟨rfl, rfl, rfl⟩

/-- C7: constructing a WechatRobot from a config containing corp_id,
secret_id and agent_id raises nothing and stores the config unchanged;
a config lacking any one of those fields raises a ValueError whose message
names a missing field. -/
theorem C7_init_requires_fields (cfg : PyDict) :
    ((∀ k ∈ requiredKeys, (lookupKey cfg k).isSome = true) →
      WechatRobot.init cfg = .ok cfg) ∧
    (∀ k ∈ requiredKeys, lookupKey cfg k = none →
      ∃ k0, k0 ∈ requiredKeys ∧ lookupKey cfg k0 = none ∧
        WechatRobot.init cfg =
          .error (.valueError ("config配置错误,缺少" ++ k0 ++ "字段"))) := by
  constructor
  · intro hall
    have h1 := hall "corp_id" (by simp [requiredKeys])
    have h2 := hall "secret_id" (by simp [requiredKeys])
    have h3 := hall "agent_id" (by simp [requiredKeys])
    simp [WechatRobot.init, requiredKeys, checkKeys, h1, h2, h3]
  · intro k hk hnone
    by_cases h1 : (lookupKey cfg "corp_id").isSome
    · by_cases h2 : (lookupKey cfg "secret_id").isSome
      · by_cases h3 : (lookupKey cfg "agent_id").isSome
        · exfalso
          simp only [requiredKeys, List.mem_cons, List.not_mem_nil,
            or_false] at hk
          rcases hk with rfl | rfl | rfl
          · rw [hnone] at h1
            simp at h1
          · rw [hnone] at h2
            simp at h2
          · rw [hnone] at h3
            simp at h3
        · refine ⟨"agent_id", by simp [requiredKeys],
            Option.not_isSome_iff_eq_none.mp h3, ?_⟩
          simp [WechatRobot.init, requiredKeys, checkKeys, h1, h2, h3,
            configErrMsg]
      · refine ⟨"secret_id", by simp [requiredKeys],
          Option.not_isSome_iff_eq_none.mp h2, ?_⟩
        simp [WechatRobot.init, requiredKeys, checkKeys, h1, h2, configErrMsg]
    · refine ⟨"corp_id", by simp [requiredKeys],
        Option.not_isSome_iff_eq_none.mp h1, ?_⟩
      simp [WechatRobot.init, requiredKeys, checkKeys, h1, configErrMsg]

/-- Witness for C7: a complete config is accepted unchanged, and a config
with only corp_id is rejected with a ValueError naming a missing field. -/
theorem C7_witness :
    WechatRobot.init
      [("corp_id", PyVal.str "c"), ("secret_id", PyVal.str "s"),
       ("agent_id", PyVal.str "a")] =
      .ok [("corp_id", PyVal.str "c"), ("secret_id", PyVal.str "s"),
       ("agent_id", PyVal.str "a")] ∧
    ∃ k0, k0 ∈ requiredKeys ∧
      lookupKey [("corp_id", PyVal.str "c")] k0 = none ∧
      WechatRobot.init [("corp_id", PyVal.str "c")] =
        .error (.valueError ("config配置错误,缺少" ++ k0 ++ "字段")) :=
  ⟨(C7_init_requires_fields _).1 (by decide),
   (C7_init_requires_fields _).2 "secret_id" (by decide) (by decide)⟩

/-- C8: on a parsed response lacking the errcode field, the send helper
raises KeyError instead of returning the response. -/
theorem C8_send_raises_without_errcode (res : JsonObj)
    (h : lookupKey res "errcode" = none) :
    send (.ok res) = .error (.keyError "errcode") := by
  simp [send, h]

/-- Witness for C8: the empty response object raises KeyError. -/
theorem C8_witness :
    send (.ok []) = .error (.keyError "errcode") :=
  C8_send_raises_without_errcode [] (by decide)

/-- C9: when a refresh is attempted and the token-endpoint call fails, or
its response lacks the access_token field, get_access_token propagates an
exception and leaves the config unchanged: neither the token field nor the
token_time field is updated. -/
theorem C9_failed_refresh_leaves_config (cfg : PyDict) (now : ℚ)
    (resp : Except PyError JsonObj)
    (hv : tokenValid cfg now = false)
    (hb : (∃ e, resp = .error e) ∨
      ∃ data, resp = .ok data ∧ lookupKey data "access_token" = none) :
    (∃ e, (WechatRobot.get_access_token cfg now resp).1 = .error e) ∧
    (WechatRobot.get_access_token cfg now resp).2.1 = cfg ∧
    lookupKey (WechatRobot.get_access_token cfg now resp).2.1 "token" =
      lookupKey cfg "token" ∧
    lookupKey (WechatRobot.get_access_token cfg now resp).2.1 "token_time" =
      lookupKey cfg "token_time" := by
  have hmain : (∃ e, (WechatRobot.get_access_token cfg now resp).1 =
      .error e) ∧ (WechatRobot.get_access_token cfg now resp).2.1 = cfg := by
    rcases hb with ⟨e, rfl⟩ | ⟨data, rfl, hd⟩
    · unfold WechatRobot.get_access_token
      simp only [hv, Bool.false_eq_true, if_false]
      cases hc : lookupKey cfg "corp_id" with
      | none => simp
      | some cid =>
        simp only
        cases hs : lookupKey cfg "secret_id" with
        | none => simp
        | some sid => simp
    · unfold WechatRobot.get_access_token
      simp only [hv, Bool.false_eq_true, if_false]
      cases hc : lookupKey cfg "corp_id" with
      | none => simp
      | some cid =>
        simp only
        cases hs : lookupKey cfg "secret_id" with
        | none => simp
        | some sid => simp [hd]
  exact ⟨hmain.1, hmain.2, by rw [hmain.2], by rw [hmain.2]⟩

/-- Witness for C9: on an empty config (no cached token) and a failing
token-endpoint call, the config stays empty. -/
theorem C9_witness :
    (∃ e, (WechatRobot.get_access_token [] 0 (.error .netError)).1 =
      .error e) ∧
    (WechatRobot.get_access_token [] 0 (.error .netError)).2.1 = [] := by
  have h := C9_failed_refresh_leaves_config [] 0 (.error .netError)
    (by decide) (.inl ⟨.netError, rfl⟩)
  exact ⟨h.1, h.2.1⟩

/-- C10: init returns the config unchanged; get_access_token and send_msg
mutate at most the token and token_time keys, so corp_id, secret_id and
agent_id are never modified; the group robot operations leave the stored
key unchanged. -/
theorem C10_config_frame :
    (∀ cfg cfg0, WechatRobot.init cfg = .ok cfg0 → cfg0 = cfg) ∧
    (∀ cfg (now : ℚ) resp k, k ≠ "token" → k ≠ "token_time" →
      lookupKey (WechatRobot.get_access_token cfg now resp).2.1 k =
        lookupKey cfg k) ∧
    (∀ cfg (now : ℚ) m r tokenResp sendResp k, k ≠ "token" →
      k ≠ "token_time" →
      lookupKey (WechatRobot.send_msg cfg now m r tokenResp sendResp).2.1 k =
        lookupKey cfg k) ∧
    (∀ gr m ml mml resp,
      (WechatGroupRobot.send_msg gr m ml mml resp).2.1 = gr ∧
      (WechatGroupRobot.send_md gr m ml mml resp).2.1 = gr) := by
  refine ⟨?_, ?_, ?_, ?_⟩
  · intro cfg cfg0 h
    cases hc : checkKeys requiredKeys cfg with
    | ok u =>
      simp [WechatRobot.init, hc] at h
      exact h.symm
    | error e => simp [WechatRobot.init, hc] at h
  · intro cfg now resp k hk1 hk2
    exact get_frame cfg now resp k hk1 hk2
  · intro cfg now m r tokenResp sendResp k hk1 hk2
    rcases hget : WechatRobot.get_access_token cfg now tokenResp with
      ⟨res, cfg1, tr⟩
    have hcfg1 : lookupKey cfg1 k = lookupKey cfg k := by
      have hfr := get_frame cfg now tokenResp k hk1 hk2
      rw [hget] at hfr
      exact hfr
    cases res with
    | error e => simp [WechatRobot.send_msg, hget, hcfg1]
    | ok tok =>
      cases ha : lookupKey cfg1 "agent_id" with
      | none => simp [WechatRobot.send_msg, hget, ha, hcfg1]
      | some aid => simp [WechatRobot.send_msg, hget, ha, hcfg1]
  · intro gr m ml mml resp
    exact ⟨rfl, rfl⟩

/-- Witness for C10: concrete instances of each frame conjunct. -/
theorem C10_witness :
    ([("corp_id", PyVal.str "c"), ("secret_id", PyVal.str "s"),
      ("agent_id", PyVal.str "a")] : PyDict) =
      [("corp_id", PyVal.str "c"), ("secret_id", PyVal.str "s"),
       ("agent_id", PyVal.str "a")] ∧
    lookupKey (WechatRobot.get_access_token [("corp_id", PyVal.str "c")] 0
        (.error .netError)).2.1 "corp_id" =
      lookupKey [("corp_id", PyVal.str "c")] "corp_id" ∧
    lookupKey (WechatRobot.send_msg [] 0 "hi" (Receiver.single "u")
        (.error .netError) (.error .netError)).2.1 "agent_id" =
      lookupKey [] "agent_id" ∧
    (WechatGroupRobot.send_msg ⟨"k"⟩ "hi" [] [] (.error .netError)).2.1 =
      (⟨"k"⟩ : WechatGroupRobot) := by
  refine ⟨?_, ?_, ?_, ?_⟩
  · exact C10_config_frame.1 _ _ (by decide)
  · exact C10_config_frame.2.1 _ 0 _ "corp_id" (by decide) (by decide)
  · exact C10_config_frame.2.2.1 _ 0 "hi" _ _ _ "agent_id" (by decide)
      (by decide)
  · exact (C10_config_frame.2.2.2 _ "hi" [] [] _).1

end MsgRobot
